import Mathlib

/-!
Verification of `oscar_mws/writers.py` (django-oscar-mws).

The Python module builds Amazon MWS product-feed XML documents. We give a
shallow embedding of its two classes:

* `BaseProductMapper` — camel-case → accessor-key conversion
  (`convert_camel_case`, two `re.sub` passes followed by `.lower()`),
  layered value lookup (`_get_value_from`, `_add_attributes`), value
  serialisation (`serialise`) and product-fragment construction
  (`get_product_xml`);
* `ProductFeedWriter` — envelope construction (`__init__`), message
  appending with a sequential counter (`add_product`) and schema
  validation (`validate_xml`).

Python objects reached by the duck-typed lookup are modelled as `PyObj`:
a table of zero-argument methods (the value a call returns) and a table
of plain attributes, both keyed by name; absence is `Option.none`, which
is exactly what `hasattr`/`getattr(.., .., None)` observe in the source.
Python values that can flow through the lookup are modelled by `PyValue`
together with Python truthiness. lxml element trees are modelled by the
inductive `Xml` (tag, attributes, text, children in document order).
-/

namespace OscarMws

/-- ASCII character class `[A-Z]` used by both regex patterns in
`convert_camel_case`. -/
def isUpperAZ (c : Char) : Bool := 65 ≤ c.toNat && c.toNat ≤ 90

/-- ASCII character class `[a-z]`. -/
def isLowerAZ (c : Char) : Bool := 97 ≤ c.toNat && c.toNat ≤ 122

/-- ASCII character class `[0-9]`. -/
def isDigit09 (c : Char) : Bool := 48 ≤ c.toNat && c.toNat ≤ 57

/-- First pass of `convert_camel_case`:
the `re.sub` call with pattern `(.)([A-Z][a-z]+)` and replacement `\1_\2`.

`re.sub` scans left to right; at each position it tries to match one
arbitrary non-newline character, then an upper-case letter followed by a
maximal non-empty run of lower-case letters, inserts `_` between the two
groups, and resumes scanning after the end of the match. -/
def sub1 : List Char → List Char
  | [] => []
  | [c] => [c]
  | c1 :: c2 :: rest =>
    if c1 ≠ '\n' && isUpperAZ c2 && !(rest.takeWhile isLowerAZ).isEmpty then
      c1 :: '_' :: c2 :: (rest.takeWhile isLowerAZ ++ sub1 (rest.dropWhile isLowerAZ))
    else
      c1 :: sub1 (c2 :: rest)
termination_by l => l.length
decreasing_by
  · simp only [List.length_cons]
    have h := (List.dropWhile_sublist (p := isLowerAZ) (l := rest)).length_le
    omega
  · simp [List.length_cons]

/-- Second pass of `convert_camel_case`:
the `re.sub` call with pattern `([a-z0-9])([A-Z])` and replacement `\1_\2`.

A match consumes a lower-case letter or digit followed by an upper-case
letter; scanning resumes after the match. -/
def sub2 : List Char → List Char
  | [] => []
  | [c] => [c]
  | c1 :: c2 :: rest =>
    if (isLowerAZ c1 || isDigit09 c1) && isUpperAZ c2 then
      c1 :: '_' :: c2 :: sub2 rest
    else
      c1 :: sub2 (c2 :: rest)

/-- Python-2 `str.lower()` on one byte: maps `A`–`Z` to `a`–`z` and leaves
every other character unchanged. -/
def lowerChar (c : Char) : Char :=
  if 65 ≤ c.toNat && c.toNat ≤ 90 then Char.ofNat (c.toNat + 32) else c

/-- Model of `BaseProductMapper.convert_camel_case` (writers.py lines 84–86): the two
substitution passes followed by `.lower()`. -/
def convert_camel_case (name : String) : String :=
  String.mk ((sub2 (sub1 name.data)).map lowerChar)

/-- Python values that can flow through the attribute lookup: `None`,
strings, integers, booleans and `datetime.date` values. -/
inductive PyValue where
  | none : PyValue
  | str (s : String) : PyValue
  | int (n : Int) : PyValue
  | bool (b : Bool) : PyValue
  | date (y m d : Nat) : PyValue
deriving DecidableEq, Repr

/-- Python truthiness (`if value:` / `if not value:`): `None`, the empty
string, `0` and `False` are falsy; a `date` object is always truthy. -/
def truthy : PyValue → Bool
  | .none => false
  | .str s => !s.isEmpty
  | .int n => n != 0
  | .bool b => b
  | .date _ _ _ => true

/-- A duck-typed Python object as observed by `_get_value_from`: a table of
zero-argument methods (keyed by the full method name, yielding the value a
call returns) and a table of plain attributes. `Option.none` is absence,
which is what `hasattr` and the three-argument `getattr` observe. -/
structure PyObj where
  methods : String → Option PyValue
  attrs : String → Option PyValue

/-- Model of the method `_get_value_from` of `BaseProductMapper` (writers.py lines 88–106): prefer
calling a `get_<attr>` method when the object has one, otherwise
`getattr(obj, attr, None)` — a missing plain attribute yields `None`, never
an error (the fail-fast branch in the source is commented out). -/
def get_value_from (obj : PyObj) (attr : String) : PyValue :=
  match obj.methods ("get_" ++ attr) with
  | some v => v
  | Option.none => (obj.attrs attr).getD PyValue.none

/-- A product record as observed by `_add_attributes`: an optional
`amazon_profile` sub-object (the `hasattr` probe for `amazon_profile` is true
exactly when it is present) and the member tables of the record itself. -/
structure Record where
  amazon_profile : Option PyObj
  obj : PyObj

/-- Left-pad a decimal string with zeros to width `w`. -/
def padZeros (w : Nat) (s : String) : String :=
  String.mk (List.replicate (w - s.length) '0') ++ s

/-- Model of `date.isoformat()`: `YYYY-MM-DD` with zero padding. -/
def isoformat (y m d : Nat) : String :=
  padZeros 4 (toString y) ++ "-" ++ padZeros 2 (toString m) ++ "-" ++ padZeros 2 (toString d)

/-- Model of `BaseProductMapper.serialise` (writers.py lines 130–139): falsy values
become the empty string, dates become their ISO format, everything else its
default text representation (`unicode(value)`). -/
def serialise (value : PyValue) : String :=
  if !truthy value then ""
  else match value with
    | .date y m d => isoformat y m d
    | .str s => s
    | .int n => toString n
    | .bool b => if b then "True" else "False"
    | .none => ""

/-- The layered value lookup performed per field inside
`BaseProductMapper._add_attributes` (writers.py lines 111–121): start with
`None`; consult the `amazon_profile` sub-object when the record has one;
while the value is falsy fall back to the record itself, then to the mapper
instance. -/
def resolveValue (mapper : PyObj) (product : Record) (pyattr : String) : PyValue :=
  let v1 := match product.amazon_profile with
    | some profile => get_value_from profile pyattr
    | Option.none => PyValue.none
  let v2 := if truthy v1 then v1 else get_value_from product.obj pyattr
  if truthy v2 then v2 else get_value_from mapper pyattr

/-- An lxml element: tag, attributes, text content and child elements in
document order. -/
inductive Xml where
  | elem (tag : String) (attrib : List (String × String)) (text : String) (children : List Xml)

/-- Tag of an element. -/
def Xml.tag : Xml → String
  | .elem t _ _ _ => t

/-- Attribute list of an element. -/
def Xml.attrib : Xml → List (String × String)
  | .elem _ a _ _ => a

/-- Text content of an element. -/
def Xml.text : Xml → String
  | .elem _ _ t _ => t

/-- Child elements of an element. -/
def Xml.children : Xml → List Xml
  | .elem _ _ _ cs => cs

/-- Model of `parent.append(child)` and of `etree.SubElement(parent, ..)`: the child
becomes the last child of the parent. -/
def Xml.appendChild (parent child : Xml) : Xml :=
  match parent with
  | .elem t a x cs => .elem t a x (cs ++ [child])

/-- One iteration of the loop in `BaseProductMapper._add_attributes`
(writers.py lines 108–128) for field name `attr`: convert the name to its
accessor key, run the layered lookup, and produce a child element exactly
when the resolved value is truthy — its text is the value itself when the
value is a string, otherwise `serialise` of the value. -/
def attrElem (mapper : PyObj) (product : Record) (attr : String) : Option Xml :=
  let value := resolveValue mapper product (convert_camel_case attr)
  if truthy value then
    let s := match value with
      | .str s => s
      | v => serialise v
    some (Xml.elem attr [] s [])
  else
    Option.none

/-- Model of the method `_add_attributes` of `BaseProductMapper`: the children appended under the
parent element for the given field-name list, in list order. -/
def add_attributes (mapper : PyObj) (product : Record) (attr_names : List String) : List Xml :=
  attr_names.filterMap (attrElem mapper product)

/-- Field list `BaseProductMapper.BASE_ATTRIBUTES` (writers.py lines 35–49). -/
def BASE_ATTRIBUTES : List String :=
  ["SKU", "StandardProductID", "ProductTaxCode", "LaunchDate", "DiscontinueDate",
   "ReleaseDate", "ExternalProductUrl", "OffAmazonChannel", "OnAmazonChannel",
   "Condition", "Rebate", "ItemPackageQuantity", "NumberOfItems"]

/-- Field list `BaseProductMapper.DESCRIPTION_DATA_ATTRIBUTES` (writers.py lines 51–82). -/
def DESCRIPTION_DATA_ATTRIBUTES : List String :=
  ["Title", "Brand", "Designer", "Description", "BulletPoint", "ItemDimensions",
   "PackageDimensions", "PackageWeight", "ShippingWeight", "MerchantCatalogNumber",
   "MSRP", "MaxOrderQuantity", "SerialNumberRequired", "Prop65", "LegalDisclaimer",
   "Manufacturer", "MfrPartNumber", "SearchTerms", "PlatinumKeywords",
   "RecommendedBrowseNode", "Memorabilia", "Autographed", "UsedFor", "ItemType",
   "OtherItemAttributes", "TargetAudience", "SubjectContent", "IsGiftWrapAvailable",
   "IsGiftMessageAvailable", "IsDiscontinuedByManufacturer", "MaxAggregateShipQuantity"]

/-- Model of `BaseProductMapper.get_product_xml` (writers.py lines 141–151): build a
`Product` element, fill it with the base attributes, then unconditionally
create a `DescriptionData` sub-element and fill that with the description
attributes. The `mapper` argument holds the member tables of the mapper
instance itself (the last-resort lookup target). -/
def get_product_xml (mapper : PyObj) (product : Record) : Xml :=
  Xml.elem "Product" [] ""
    (add_attributes mapper product BASE_ATTRIBUTES
      ++ [Xml.elem "DescriptionData" [] "" (add_attributes mapper product DESCRIPTION_DATA_ATTRIBUTES)])

/-- The attribute name computed in `ProductFeedWriter.__init__`:
`"{http://www.w3.org/2001/XMLSchema-instance}noNamespaceSchemaLocation"`
(Clark notation used by lxml for a namespaced attribute). -/
def schemaLocationAttr : String :=
  "\x7bhttp://www.w3.org/2001/XMLSchema-instance\x7dnoNamespaceSchemaLocation"

/-- State of one `ProductFeedWriter` instance. `__init__` (writers.py lines
160–182) binds `mapper_class`, `root`, `msg_counter` and `messages` on the
instance — and nothing else. In particular the `schema` attribute read by
`validate_xml` is never bound by any code in the module, which we record
with the field `schema : Option Empty`: `Option.none` means "attribute not
bound; reading it raises `AttributeError`", and no in-module execution can
produce a `some`. `counter` holds the next value `itertools.count` will
yield; `messages` is the `msg_id → product` mapping in insertion order
(message ids are unique, so the dict is an association list). -/
structure WriterState where
  root : Xml
  counter : Nat
  messages : List (Nat × Record)
  schema : Option Empty

/-- Model of `ProductFeedWriter.__init__` (writers.py lines 160–182): build the
envelope root — `Header` (with `DocumentVersion` "1.01" and the supplied
`MerchantIdentifier`), `MessageType` "Product", and `PurgeAndReplace` whose
text is `"true"` exactly when the flag is true — attach the
`xsi:noNamespaceSchemaLocation` attribute, and start the message counter
at 1 with an empty message mapping. -/
def writerInit (merchant_id : String) (purge_and_replace : Bool) : WriterState :=
  let purge_value := if purge_and_replace then "true" else "false"
  { root := Xml.elem "AmazonEnvelope" [(schemaLocationAttr, "amzn-envelope.xsd")] ""
      [ Xml.elem "Header" [] ""
          [ Xml.elem "DocumentVersion" [] "1.01" []
          , Xml.elem "MerchantIdentifier" [] merchant_id [] ]
      , Xml.elem "MessageType" [] "Product" []
      , Xml.elem "PurgeAndReplace" [] purge_value [] ]
  , counter := 1
  , messages := []
  , schema := Option.none }

/-- The `Message` element built by `ProductFeedWriter.add_product` for
message id `i`, operation type `op` and product `p`. -/
def msgElem (mapper : PyObj) (i : Nat) (p : Record) (op : String) : Xml :=
  Xml.elem "Message" [] ""
    [ Xml.elem "MessageID" [] (toString i) []
    , Xml.elem "OperationType" [] op []
    , get_product_xml mapper p ]

/-- Model of `ProductFeedWriter.add_product` (writers.py lines 184–193): draw the
next counter value, build a `Message` with `MessageID`, `OperationType` and
the mapper-built `Product` fragment, record the id → product association,
and append the message as the last child of the envelope root. `mapper`
stands for the member tables of the fresh `self.mapper_class()` instance,
identical on every call. -/
def add_product (mapper : PyObj) (st : WriterState) (product : Record) (operation_type : String) : WriterState :=
  let msg_id := st.counter
  { root := st.root.appendChild (msgElem mapper msg_id product operation_type)
  , counter := st.counter + 1
  , messages := st.messages ++ [(msg_id, product)]
  , schema := st.schema }

/-- A sequence of `add_product` calls, one per `(product, operation_type)`
pair, in order. -/
def addProducts (mapper : PyObj) (st : WriterState) (ps : List (Record × String)) : WriterState :=
  ps.foldl (fun s p => add_product mapper s p.1 p.2) st

/-- Model of `ProductFeedWriter.validate_xml` (writers.py lines 195–204). Its first
statement is `if not self.schema:` — but no code in the module ever binds
`self.schema` (`__init__` does not initialise it, and the assignment inside
`validate_xml` sits behind this very read), so the read raises
`AttributeError` before the schema can be loaded, the envelope validated,
or anything logged. We model the raise as `Except.error`. -/
def validate_xml (st : WriterState) : Except String WriterState :=
  match st.schema with
  | Option.none =>
      Except.error "AttributeError: ProductFeedWriter object has no attribute schema"
  | some e => e.elim

/-- The `MessageID` text of a `Message` element: the text of its first
child, provided that child is tagged `MessageID`. -/
def msgIdText : Xml → Option String
  | Xml.elem _ _ _ (Xml.elem "MessageID" _ t _ :: _) => some t
  | _ => Option.none

/-- A `PyObj` with no methods and no attributes: every lookup misses. -/
def emptyObj : PyObj := ⟨fun _ => Option.none, fun _ => Option.none⟩

/-- A record with no `amazon_profile` and no members at all. -/
def emptyRecord : Record := ⟨Option.none, emptyObj⟩

theorem toNat_lowerChar_shift (c : Char) (h : c.toNat ≤ 90) :
    (Char.ofNat (c.toNat + 32)).toNat = c.toNat + 32 := by
  have hv : Nat.isValidChar (c.toNat + 32) := by
    left
    simp only [Char.toNat] at *
    omega
  simp only [Char.ofNat, Char.toNat] at *
  rw [dif_pos hv]
  simp [Char.ofNatAux, Char.toNat, UInt32.ofNat', UInt32.toNat, BitVec.toNat_ofNatLt]

theorem isUpperAZ_lowerChar (c : Char) : isUpperAZ (lowerChar c) = false := by
  by_cases h : (65 ≤ c.toNat && c.toNat ≤ 90) = true
  · have h' := h
    rw [Bool.and_eq_true, decide_eq_true_eq, decide_eq_true_eq] at h'
    have h65 : 65 ≤ c.toNat := h'.1
    have h90 : c.toNat ≤ 90 := h'.2
    simp only [lowerChar, h, if_true, isUpperAZ, toNat_lowerChar_shift c h90]
    simp only [Bool.and_eq_false_iff, decide_eq_false_iff_not]
    right
    omega
  · simp [lowerChar, h, isUpperAZ]

theorem lowerChar_of_noUpper (c : Char) (h : isUpperAZ c = false) : lowerChar c = c := by
  simp only [isUpperAZ] at h
  simp [lowerChar, h]

theorem sub1_of_noUpper (l : List Char) (h : ∀ c ∈ l, isUpperAZ c = false) :
    sub1 l = l := by
  induction l using sub1.induct with
  | case1 => simp [sub1]
  | case2 c => simp [sub1]
  | case3 c1 c2 rest hcond ih =>
      rw [Bool.and_eq_true, Bool.and_eq_true] at hcond
      have hu := h c2 (by simp)
      rw [hcond.1.2] at hu
      cases hu
  | case4 c1 c2 rest hcond ih =>
      simp only [sub1]
      rw [if_neg hcond]
      rw [ih (fun c hc => h c (List.mem_cons_of_mem c1 hc))]

theorem sub2_of_noUpper (l : List Char) (h : ∀ c ∈ l, isUpperAZ c = false) :
    sub2 l = l := by
  induction l using sub2.induct with
  | case1 => simp [sub2]
  | case2 c => simp [sub2]
  | case3 c1 c2 rest hcond ih =>
      rw [Bool.and_eq_true] at hcond
      have hu := h c2 (by simp)
      rw [hcond.2] at hu
      cases hu
  | case4 c1 c2 rest hcond ih =>
      simp only [sub2]
      rw [if_neg hcond]
      rw [ih (fun c hc => h c (List.mem_cons_of_mem c1 hc))]

theorem map_lowerChar_of_noUpper (l : List Char) (h : ∀ c ∈ l, isUpperAZ c = false) :
    l.map lowerChar = l := by
  induction l with
  | nil => rfl
  | cons c cs ih =>
      simp only [List.map_cons, lowerChar_of_noUpper c (h c (by simp)),
        ih (fun x hx => h x (List.mem_cons_of_mem c hx))]

theorem noUpper_convert_camel_case (s : String) :
    ∀ c ∈ (convert_camel_case s).data, isUpperAZ c = false := by
  intro c hc
  simp only [convert_camel_case] at hc
  obtain ⟨d, _, rfl⟩ := List.mem_map.mp hc
  exact isUpperAZ_lowerChar d

theorem convert_camel_case_idem (s : String) :
    convert_camel_case (convert_camel_case s) = convert_camel_case s := by
  have h := noUpper_convert_camel_case s
  conv_lhs => rw [convert_camel_case]
  rw [sub1_of_noUpper _ h, sub2_of_noUpper _ h, map_lowerChar_of_noUpper _ h]

theorem ccc_StandardProductID :
    convert_camel_case "StandardProductID" = "standard_product_id" := by
  simp [convert_camel_case, sub1, sub2, lowerChar, isUpperAZ, isLowerAZ, isDigit09]

theorem ccc_SKU : convert_camel_case "SKU" = "sku" := by
  simp [convert_camel_case, sub1, sub2, lowerChar, isUpperAZ, isLowerAZ, isDigit09]

theorem ccc_ItemPackageQuantity :
    convert_camel_case "ItemPackageQuantity" = "item_package_quantity" := by
  simp [convert_camel_case, sub1, sub2, lowerChar, isUpperAZ, isLowerAZ, isDigit09]

/-- C5: the accessor-key conversion `convert_camel_case` is a deterministic
function of the field name (it is a Lean function of its single argument),
maps `StandardProductID` to `standard_product_id`, `SKU` to `sku` and
`ItemPackageQuantity` to `item_package_quantity`, and is idempotent:
applied to its own output it returns that output unchanged. -/
theorem convert_camel_case_correct :
    convert_camel_case "StandardProductID" = "standard_product_id" ∧
    convert_camel_case "SKU" = "sku" ∧
    convert_camel_case "ItemPackageQuantity" = "item_package_quantity" ∧
    ∀ s : String, convert_camel_case (convert_camel_case s) = convert_camel_case s :=
  ⟨ccc_StandardProductID, ccc_SKU, ccc_ItemPackageQuantity, convert_camel_case_idem⟩

/-- C2: in a single `_get_value_from` resolution attempt against any target
object, when the target exposes a zero-argument method `get_<key>`, its
return value is returned no matter which plain attributes exist; the plain
attribute `<key>` is read only when no such method exists. -/
theorem get_value_from_method_precedence (obj : PyObj) (key : String) :
    (∀ v, obj.methods ("get_" ++ key) = some v → get_value_from obj key = v) ∧
    (obj.methods ("get_" ++ key) = Option.none →
      get_value_from obj key = (obj.attrs key).getD PyValue.none) := by
  constructor
  · intro v hv
    simp [get_value_from, hv]
  · intro h
    simp [get_value_from, h]

/-- A target object exposing both a zero-argument method `get_sku`
(returning `"METHOD"`) and a plain attribute `sku` (holding
`"ATTRIBUTE"`). -/
def methodAndAttrObj : PyObj :=
  ⟨fun k => if k = "get_sku" then some (PyValue.str "METHOD") else Option.none,
   fun k => if k = "sku" then some (PyValue.str "ATTRIBUTE") else Option.none⟩

/-- Witness for C2: on a concrete object exposing both `get_sku` and `sku`,
the single resolution attempt returns the method result, not the
attribute. -/
theorem get_value_from_method_precedence_witness :
    get_value_from methodAndAttrObj "sku" = PyValue.str "METHOD" :=
  (get_value_from_method_precedence methodAndAttrObj "sku").1
    (PyValue.str "METHOD") (by simp [methodAndAttrObj])

/-- C1: per-field lookup precedence of `_add_attributes`. For every record
carrying an `amazon_profile` sub-object: a truthy profile-stage value is
used even when a truthy record-level value also exists; the record is
consulted exactly when the profile stage yields no truthy value; and the
mapper instance is consulted exactly when the record stage also yields no
truthy value. -/
theorem resolveValue_precedence (mapper profile obj : PyObj) (key : String) :
    (truthy (get_value_from profile key) = true →
      resolveValue mapper ⟨some profile, obj⟩ key = get_value_from profile key) ∧
    (truthy (get_value_from profile key) = false →
      truthy (get_value_from obj key) = true →
      resolveValue mapper ⟨some profile, obj⟩ key = get_value_from obj key) ∧
    (truthy (get_value_from profile key) = false →
      truthy (get_value_from obj key) = false →
      resolveValue mapper ⟨some profile, obj⟩ key = get_value_from mapper key) := by
  refine ⟨fun h1 => ?_, fun h1 h2 => ?_, fun h1 h2 => ?_⟩
  · simp [resolveValue, h1]
  · simp [resolveValue, h1, h2]
  · simp [resolveValue, h1, h2]

/-- An object whose plain attribute `sku` holds `"PROFILE"`. -/
def profileSkuObj : PyObj :=
  ⟨fun _ => Option.none,
   fun k => if k = "sku" then some (PyValue.str "PROFILE") else Option.none⟩

/-- An object whose plain attribute `sku` holds `"RECORD"`. -/
def recordSkuObj : PyObj :=
  ⟨fun _ => Option.none,
   fun k => if k = "sku" then some (PyValue.str "RECORD") else Option.none⟩

/-- Witness for C1: with a truthy `sku` on both the profile and the record,
the resolved value is the profile one. -/
theorem resolveValue_precedence_witness :
    resolveValue emptyObj ⟨some profileSkuObj, recordSkuObj⟩ "sku" = PyValue.str "PROFILE" :=
  (resolveValue_precedence emptyObj profileSkuObj recordSkuObj "sku").1
    (by simp [get_value_from, profileSkuObj, truthy]
        decide)

/-- C4: `_add_attributes` appends a child element for a field exactly when
the resolved value is truthy; a falsy resolved value — `None`, the empty
string, numeric zero or `False` — produces no child element at all (not
even an empty one). -/
theorem attrElem_isSome_iff_truthy (mapper : PyObj) (r : Record) (attr : String) :
    (attrElem mapper r attr).isSome
      = truthy (resolveValue mapper r (convert_camel_case attr)) ∧
    truthy PyValue.none = false ∧
    truthy (PyValue.str "") = false ∧
    truthy (PyValue.int 0) = false ∧
    truthy (PyValue.bool false) = false := by
  refine ⟨?_, rfl, by decide, by decide, rfl⟩
  by_cases h : truthy (resolveValue mapper r (convert_camel_case attr)) = true
  · simp [attrElem, h]
  · simp only [Bool.not_eq_true] at h
    simp [attrElem, h]

theorem attrElem_tag (mapper : PyObj) (r : Record) (attr : String) (x : Xml)
    (h : attrElem mapper r attr = some x) : x.tag = attr := by
  unfold attrElem at h
  by_cases ht : truthy (resolveValue mapper r (convert_camel_case attr)) = true
  · simp only [ht, if_true] at h
    cases h
    rfl
  · simp only [Bool.not_eq_true] at ht
    simp [ht] at h

theorem add_attributes_tag_mem (mapper : PyObj) (r : Record) (names : List String)
    (x : Xml) (h : x ∈ add_attributes mapper r names) : x.tag ∈ names := by
  unfold add_attributes at h
  obtain ⟨a, ha, hx⟩ := List.mem_filterMap.mp h
  rw [attrElem_tag mapper r a x hx]
  exact ha

theorem resolveValue_of_all_missing (mapper : PyObj) (r : Record) (key : String)
    (hp : ∀ profile, r.amazon_profile = some profile →
        profile.methods ("get_" ++ key) = Option.none ∧
        profile.attrs key = Option.none)
    (hm1 : r.obj.methods ("get_" ++ key) = Option.none)
    (ha1 : r.obj.attrs key = Option.none)
    (hm2 : mapper.methods ("get_" ++ key) = Option.none)
    (ha2 : mapper.attrs key = Option.none) :
    resolveValue mapper r key = PyValue.none := by
  have hobj : get_value_from r.obj key = PyValue.none := by
    simp [get_value_from, hm1, ha1]
  have hmap : get_value_from mapper key = PyValue.none := by
    simp [get_value_from, hm2, ha2]
  unfold resolveValue
  cases hprof : r.amazon_profile with
  | none => simp [truthy, hobj, hmap]
  | some profile =>
      have hpq := hp profile hprof
      have : get_value_from profile key = PyValue.none := by
        simp [get_value_from, hpq.1, hpq.2]
      simp [this, truthy, hobj, hmap]

/-- C3: for a record exposing no matching profile member, attribute or
accessor method for a field (the profile sub-object being absent or itself
memberless, and the mapper also memberless for the field), `_add_attributes`
produces no `attrElem` for the field and zero child elements named after it
in the built attribute block; every lookup stage treats the absence as "no
value" (`attrElem` and `add_attributes` are total functions — nothing is
raised). -/
theorem missing_field_yields_no_child (mapper : PyObj) (r : Record) (attr : String)
    (hp : ∀ profile, r.amazon_profile = some profile →
        profile.methods ("get_" ++ convert_camel_case attr) = Option.none ∧
        profile.attrs (convert_camel_case attr) = Option.none)
    (hm1 : r.obj.methods ("get_" ++ convert_camel_case attr) = Option.none)
    (ha1 : r.obj.attrs (convert_camel_case attr) = Option.none)
    (hm2 : mapper.methods ("get_" ++ convert_camel_case attr) = Option.none)
    (ha2 : mapper.attrs (convert_camel_case attr) = Option.none) :
    attrElem mapper r attr = Option.none ∧
    ∀ names : List String,
      (add_attributes mapper r names).countP (fun c => c.tag == attr) = 0 := by
  have hres := resolveValue_of_all_missing mapper r (convert_camel_case attr)
    hp hm1 ha1 hm2 ha2
  have hnone : attrElem mapper r attr = Option.none := by
    simp [attrElem, hres, truthy]
  refine ⟨hnone, fun names => ?_⟩
  rw [List.countP_eq_zero]
  intro x hx
  unfold add_attributes at hx
  obtain ⟨a, _, hxa⟩ := List.mem_filterMap.mp hx
  have htag := attrElem_tag mapper r a x hxa
  by_cases hattr : a = attr
  · rw [hattr] at hxa
    rw [hnone] at hxa
    cases hxa
  · simp [htag, hattr]

/-- Witness for C3: on a record with no profile and no members at all, the
field `SKU` yields no `attrElem`, and an attribute block built over the
base field list contains zero children tagged `SKU`. -/
theorem missing_field_yields_no_child_witness :
    attrElem emptyObj emptyRecord "SKU" = Option.none ∧
    (add_attributes emptyObj emptyRecord BASE_ATTRIBUTES).countP
      (fun c => c.tag == "SKU") = 0 := by
  have h := missing_field_yields_no_child emptyObj emptyRecord "SKU"
    (fun profile hprof => by cases hprof) rfl rfl rfl rfl
  exact ⟨h.1, h.2 BASE_ATTRIBUTES⟩

theorem attrElem_empty (attr : String) :
    attrElem emptyObj emptyRecord attr = Option.none := rfl

theorem add_attributes_empty (names : List String) :
    add_attributes emptyObj emptyRecord names = [] := by
  unfold add_attributes
  induction names with
  | nil => rfl
  | cons a rest ih => rw [List.filterMap_cons, attrElem_empty, ih]

/-- C10: for every mapper and record, the `Product` fragment consists of
the base-attribute children followed by exactly one `DescriptionData`
child, which is created unconditionally and holds the description-field
children; on a record resolving nothing at all, the fragment contains the
empty `DescriptionData` element and nothing else. -/
theorem get_product_xml_description_data (mapper : PyObj) (p : Record) :
    (get_product_xml mapper p).children
      = add_attributes mapper p BASE_ATTRIBUTES
        ++ [Xml.elem "DescriptionData" [] ""
              (add_attributes mapper p DESCRIPTION_DATA_ATTRIBUTES)] ∧
    ((get_product_xml mapper p).children.countP
        (fun c => c.tag == "DescriptionData")) = 1 ∧
    (get_product_xml mapper p).children.getLast?
      = some (Xml.elem "DescriptionData" [] ""
          (add_attributes mapper p DESCRIPTION_DATA_ATTRIBUTES)) ∧
    (get_product_xml emptyObj emptyRecord).children
      = [Xml.elem "DescriptionData" [] "" []] := by
  refine ⟨rfl, ?_, ?_, ?_⟩
  · show ((add_attributes mapper p BASE_ATTRIBUTES ++ [_]).countP _) = 1
    rw [List.countP_append]
    have hbase : (add_attributes mapper p BASE_ATTRIBUTES).countP
        (fun c => c.tag == "DescriptionData") = 0 := by
      rw [List.countP_eq_zero]
      intro x hx
      have := add_attributes_tag_mem mapper p BASE_ATTRIBUTES x hx
      have hne : x.tag ≠ "DescriptionData" := by
        intro he
        rw [he] at this
        revert this
        decide
      simp [hne]
    rw [hbase]
    rfl
  · show (add_attributes mapper p BASE_ATTRIBUTES ++ [_]).getLast? = _
    rw [List.getLast?_append]
    rfl
  · show (add_attributes emptyObj emptyRecord BASE_ATTRIBUTES
        ++ [Xml.elem "DescriptionData" [] ""
              (add_attributes emptyObj emptyRecord DESCRIPTION_DATA_ATTRIBUTES)]) = _
    rw [add_attributes_empty, add_attributes_empty]
    rfl

theorem appendChild_tag (x c : Xml) : (x.appendChild c).tag = x.tag := by
  cases x
  rfl

theorem appendChild_attrib (x c : Xml) : (x.appendChild c).attrib = x.attrib := by
  cases x
  rfl

theorem appendChild_children (x c : Xml) :
    (x.appendChild c).children = x.children ++ [c] := by
  cases x
  rfl

theorem add_product_root (mapper : PyObj) (st : WriterState) (p : Record) (op : String) :
    (add_product mapper st p op).root
      = st.root.appendChild (msgElem mapper st.counter p op) := rfl

theorem add_product_counter (mapper : PyObj) (st : WriterState) (p : Record) (op : String) :
    (add_product mapper st p op).counter = st.counter + 1 := rfl

theorem add_product_schema (mapper : PyObj) (st : WriterState) (p : Record) (op : String) :
    (add_product mapper st p op).schema = st.schema := rfl

theorem addProducts_state (mapper : PyObj) (ps : List (Record × String)) (st : WriterState) :
    (addProducts mapper st ps).root.tag = st.root.tag ∧
    (addProducts mapper st ps).root.attrib = st.root.attrib ∧
    (addProducts mapper st ps).root.children
      = st.root.children
        ++ (List.enumFrom st.counter ps).map (fun ip => msgElem mapper ip.1 ip.2.1 ip.2.2) ∧
    (addProducts mapper st ps).counter = st.counter + ps.length ∧
    (addProducts mapper st ps).schema = st.schema := by
  induction ps generalizing st with
  | nil => simp [addProducts, List.enumFrom]
  | cons p rest ih =>
      have hstep : addProducts mapper st (p :: rest)
          = addProducts mapper (add_product mapper st p.1 p.2) rest := rfl
      obtain ⟨htag, hattrib, hch, hcount, hschema⟩ := ih (add_product mapper st p.1 p.2)
      rw [hstep]
      refine ⟨?_, ?_, ?_, ?_, ?_⟩
      · rw [htag, add_product_root]
        exact appendChild_tag st.root _
      · rw [hattrib, add_product_root]
        exact appendChild_attrib st.root _
      · rw [hch, add_product_root, appendChild_children, add_product_counter,
          List.append_assoc]
        rfl
      · rw [hcount, add_product_counter, List.length_cons]
        omega
      · rw [hschema, add_product_schema]

theorem enumFrom_map_ids (mapper : PyObj) (ps : List (Record × String)) (n : Nat) :
    (List.enumFrom n ps).map
        (fun ip : Nat × Record × String => msgIdText (msgElem mapper ip.1 ip.2.1 ip.2.2))
      = (List.range ps.length).map (fun i => some (toString (n + i))) := by
  induction ps generalizing n with
  | nil => rfl
  | cons p rest ih =>
      show some (toString n) :: (List.enumFrom (n + 1) rest).map _
          = (List.range (rest.length + 1)).map _
      rw [List.range_succ_eq_map, List.map_cons, List.map_map, ih (n + 1)]
      rw [Nat.add_zero]
      congr 1
      apply List.map_congr_left
      intro i _
      show some (toString (n + 1 + i)) = some (toString (n + (i + 1)))
      rw [Nat.add_assoc, Nat.add_comm 1 i]

/-- C6: adding any number of records to a freshly constructed writer yields
`Message` elements whose `MessageID` texts are the decimal integers `1`
through `N`, in insertion order (hence strictly increasing and never
reused), regardless of the operation types supplied per call. -/
theorem message_ids_sequential (mapper : PyObj) (merchant : String) (purge : Bool)
    (ps : List (Record × String)) :
    ((addProducts mapper (writerInit merchant purge) ps).root.children.drop 3).map msgIdText
      = (List.range ps.length).map (fun i => some (toString (i + 1))) := by
  obtain ⟨-, -, hch, -, -⟩ := addProducts_state mapper ps (writerInit merchant purge)
  rw [hch]
  rw [List.drop_left'
    (show ((writerInit merchant purge).root.children).length = 3 from rfl)]
  rw [List.map_map]
  rw [show ((writerInit merchant purge).counter) = 1 from rfl]
  rw [show (msgIdText ∘ fun ip : Nat × Record × String => msgElem mapper ip.1 ip.2.1 ip.2.2)
        = fun ip : Nat × Record × String => msgIdText (msgElem mapper ip.1 ip.2.1 ip.2.2)
      from rfl]
  rw [enumFrom_map_ids]
  apply List.map_congr_left
  intro i _
  rw [Nat.add_comm]

/-- The list of `Message` elements an envelope holds after its records were
added: message ids count up from 1 in insertion order. -/
def envelopeMessages (mapper : PyObj) (ps : List (Record × String)) : List Xml :=
  (List.enumFrom 1 ps).map (fun ip => msgElem mapper ip.1 ip.2.1 ip.2.2)

theorem envelopeMessages_tag (mapper : PyObj) (ps : List (Record × String)) :
    ∀ x ∈ envelopeMessages mapper ps, x.tag = "Message" := by
  intro x hx
  obtain ⟨ip, _, rfl⟩ := List.mem_map.mp hx
  rfl

/-- C7: for every merchant identifier and purge flag, and after any sequence
of `add_product` calls, the envelope root is `AmazonEnvelope`, carries the
`xsi:noNamespaceSchemaLocation` attribute, and its children are exactly one
`Header` (holding `DocumentVersion` "1.01" and the caller-supplied
`MerchantIdentifier`), one `MessageType` "Product", one `PurgeAndReplace`
whose text is the literal `"true"` when the flag is true and `"false"`
otherwise, followed by the added `Message` elements in call order — the
header elements are unchanged by the additions. -/
theorem envelope_structure (mapper : PyObj) (merchant : String) (purge : Bool)
    (ps : List (Record × String)) :
    (addProducts mapper (writerInit merchant purge) ps).root.tag = "AmazonEnvelope" ∧
    (addProducts mapper (writerInit merchant purge) ps).root.attrib
      = [(schemaLocationAttr, "amzn-envelope.xsd")] ∧
    (addProducts mapper (writerInit merchant purge) ps).root.children
      = Xml.elem "Header" [] ""
          [ Xml.elem "DocumentVersion" [] "1.01" []
          , Xml.elem "MerchantIdentifier" [] merchant [] ]
        :: Xml.elem "MessageType" [] "Product" []
        :: Xml.elem "PurgeAndReplace" [] (if purge then "true" else "false") []
        :: envelopeMessages mapper ps ∧
    ((addProducts mapper (writerInit merchant purge) ps).root.children.countP
        (fun c => c.tag == "Header")) = 1 ∧
    ((addProducts mapper (writerInit merchant purge) ps).root.children.countP
        (fun c => c.tag == "MessageType")) = 1 ∧
    ((addProducts mapper (writerInit merchant purge) ps).root.children.countP
        (fun c => c.tag == "PurgeAndReplace")) = 1 ∧
    ((addProducts mapper (writerInit merchant purge) ps).root.children.drop 3).all
        (fun c => c.tag == "Message") = true := by
  obtain ⟨htag, hattrib, hch, -, -⟩ := addProducts_state mapper ps (writerInit merchant purge)
  have hc3 : (addProducts mapper (writerInit merchant purge) ps).root.children
      = Xml.elem "Header" [] ""
          [ Xml.elem "DocumentVersion" [] "1.01" []
          , Xml.elem "MerchantIdentifier" [] merchant [] ]
        :: Xml.elem "MessageType" [] "Product" []
        :: Xml.elem "PurgeAndReplace" [] (if purge then "true" else "false") []
        :: envelopeMessages mapper ps := by
    rw [hch]
    rfl
  have hmsg := envelopeMessages_tag mapper ps
  have hz : ∀ t : String, t ≠ "Message" →
      (envelopeMessages mapper ps).countP (fun c => c.tag == t) = 0 := by
    intro t ht
    rw [List.countP_eq_zero]
    intro x hx
    rw [hmsg x hx]
    simp
    intro he
    exact absurd he.symm ht
  refine ⟨by rw [htag]; rfl, by rw [hattrib]; rfl, hc3, ?_, ?_, ?_, ?_⟩
  · rw [hc3, List.countP_cons, List.countP_cons, List.countP_cons,
      hz "Header" (by decide)]
    simp [Xml.tag]
  · rw [hc3, List.countP_cons, List.countP_cons, List.countP_cons,
      hz "MessageType" (by decide)]
    simp [Xml.tag]
  · rw [hc3, List.countP_cons, List.countP_cons, List.countP_cons,
      hz "PurgeAndReplace" (by decide)]
    simp [Xml.tag]
  · rw [hc3]
    show (envelopeMessages mapper ps).all (fun c => c.tag == "Message") = true
    rw [List.all_eq_true]
    intro x hx
    rw [hmsg x hx]
    decide

/-- C8: contrary to the lazy-load-and-cache contract, `validate_xml` is not
safe to call on a freshly constructed writer: `__init__` never binds the
`schema` attribute, so the guard `if not self.schema:` raises
`AttributeError` before the schema document can be loaded or cached. -/
theorem validate_xml_fresh_writer_raises :
    validate_xml (writerInit "M123" false)
      = Except.error "AttributeError: ProductFeedWriter object has no attribute schema" := rfl

/-- C9: contrary to the log-and-continue contract, every `validate_xml`
call on a writer built by `__init__` and any sequence of `add_product`
calls raises `AttributeError` when reading the never-bound `self.schema`,
before any validation or logging can happen. -/
theorem validate_xml_after_adds_raises (mapper : PyObj) (merchant : String) (purge : Bool)
    (ps : List (Record × String)) :
    validate_xml (addProducts mapper (writerInit merchant purge) ps)
      = Except.error "AttributeError: ProductFeedWriter object has no attribute schema" := by
  obtain ⟨-, -, -, -, hschema⟩ := addProducts_state mapper ps (writerInit merchant purge)
  cases h : (addProducts mapper (writerInit merchant purge) ps).schema with
  | none => simp [validate_xml, h]
  | some e => exact e.elim

end OscarMws
